import Mathlib

/-!
Shallow embedding of the orchestration core of `src/services/geminiService.ts`
(the CLOCKWORK-TEMPTATION/style repository), together with theorems settling
the specification claims about it.

External generative calls are modelled by scripting their outcomes: a call
that may fail is an `Except Unit _` value, a conversation is a list of
responses, a polling sequence is a list of job states.  All text assembly,
extraction, control flow and error handling is translated directly from the
TypeScript source.
-/

namespace Style

/-! ## String containment

`strContains s pat` says `pat` occurs verbatim inside `s`.  We use an
explicit splitting so positive occurrences are exhibited constructively. -/

def strContains (s pat : String) : Prop := ∃ a b : String, s = a ++ (pat ++ b)

/-! ## SimulationConfig and the fit-prompt composer

From `src/services/geminiService.ts`, `generateVirtualFit` (lines 311–385).
The TypeScript type annotates the three enumerated fields with string-union
types, but at runtime they are plain strings compared with `===`; we model
them as `String` so out-of-enumeration values can be discussed (claim C9).
An absent `actorConstraints` is modelled as `""` (both are falsy in JS). -/

structure SimulationConfig where
  physics : String
  lighting : String
  action : String
  actorConstraints : String
deriving Repr, DecidableEq

def heavyClause : String := "Fabric should hang heavily with minimal folds."
def flowClause : String := "Fabric should react dynamically to air, showing movement."
def wetClause : String := "Fabric must appear damp, darker, and clinging to the skin."
def dramaticClause : String := "High contrast, noir-style shadows."
def neonClause : String := "Cyberpunk style colored rim lights (pink/blue)."

/-- `${simConfig.physics === 'heavy' ? 'Fabric should hang heavily with minimal folds.' : ''}` -/
def heavySlot (c : SimulationConfig) : String :=
  if c.physics = "heavy" then heavyClause else ""

/-- `${simConfig.physics === 'flow' ? 'Fabric should react dynamically to air, showing movement.' : ''}` -/
def flowSlot (c : SimulationConfig) : String :=
  if c.physics = "flow" then flowClause else ""

/-- `${simConfig.physics === 'wet' ? 'Fabric must appear damp, darker, and clinging to the skin.' : ''}` -/
def wetSlot (c : SimulationConfig) : String :=
  if c.physics = "wet" then wetClause else ""

/-- `${simConfig.lighting === 'dramatic' ? 'High contrast, noir-style shadows.' : ''}` -/
def dramaticSlot (c : SimulationConfig) : String :=
  if c.lighting = "dramatic" then dramaticClause else ""

/-- `${simConfig.lighting === 'neon' ? 'Cyberpunk style colored rim lights (pink/blue).' : ''}` -/
def neonSlot (c : SimulationConfig) : String :=
  if c.lighting = "neon" then neonClause else ""

/-- The high-priority safety clause appended when `actorConstraints` is truthy
(geminiService.ts line 333). -/
def constraintClause (t : String) : String :=
  "- **ACTOR CONSTRAINTS / SAFETY:** " ++
    (t ++ (". " ++ ("(Priority: High" ++ " - Ensure these constraints modify the fit visually).")))

/-- `${simConfig.actorConstraints ? ... : ''}` -/
def constraintSlot (c : SimulationConfig) : String :=
  if c.actorConstraints = "" then "" else constraintClause c.actorConstraints

/-- The `physicsPrompt` template literal of `generateVirtualFit`
(geminiService.ts lines 323–334), byte for byte; `\x27` is the ASCII
apostrophe. -/
def physicsPrompt (c : SimulationConfig) : String :=
  "\n        [PHYSICS & LIGHTING ENGINE SETTINGS]\n        - **Fabric Physics:** Simulate \x27" ++
  (c.physics ++
  ("\x27 weight. \n           " ++
  (heavySlot c ++
  ("\n           " ++
  (flowSlot c ++
  ("\n           " ++
  (wetSlot c ++
  ("\n        - **Lighting Synthesis:** Apply \x27" ++
  (c.lighting ++
  ("\x27 lighting.\n           " ++
  (dramaticSlot c ++
  ("\n           " ++
  (neonSlot c ++
  ("\n        - **Pose Estimation:** Adapt the garment to the actor\x27s \x27" ++
  (c.action ++
  ("\x27 pose rigorously.\n        " ++
  (constraintSlot c ++
  "\n        ")))))))))))))))))

/-- `let physicsPrompt = ""; if (simConfig) ...` (lines 321–335). -/
def physicsBlock : Option SimulationConfig → String
  | none => ""
  | some c => physicsPrompt c

/-- The optional `[CONTEXT & ENVIRONMENT]` block (lines 343–346). -/
def contextBlock : Option String → String
  | none => ""
  | some ctx => "\n        [CONTEXT & ENVIRONMENT]\n        " ++ (ctx ++ "\n        ")

/-- The full `prompt` template literal of `generateVirtualFit`
(geminiService.ts lines 337–354). -/
def fitPrompt (garmentDescription : String) (context : Option String)
    (simConfig : Option SimulationConfig) : String :=
  "\n        Act as a professional high-end VFX compositor for film.\n        Task: Realistically digitally dress the person in the \x27Model Image\x27 with the clothing item from the \x27Garment Image\x27.\n        \n        Garment Description: " ++
  (garmentDescription ++
  ("\n        \n        " ++
  (contextBlock context ++
  ("\n\n        " ++
  (physicsBlock simConfig ++
  ("\n\n        Requirements:\n        1. **Computer Vision Match:** The clothing must perfectly align with the actor\x27s skeleton rig and posture.\n        2. **Photorealism:** Match the film grain, resolution, and sensor noise of the Model Image.\n        3. **Integrity:** Do NOT change the model\x27s face, hair, or background. Only replace the clothing.\n    "))))))

/-! ## ContextGatherer: `getRealWeatherWithSearch` (geminiService.ts lines 20–55)

The search-grounded generative call is scripted as an `Except Unit
WeatherResponse`: `.error` is the `catch (e)` path (any thrown failure),
`.ok` carries the response object.  `response.text` is `Option String`
(the SDK field may be undefined); grounding chunks are modelled by their
optional `web.uri` field. -/

structure WeatherResponse where
  text : Option String
  groundingChunks : List (Option String)
deriving Repr, DecidableEq

structure WeatherResult where
  temp : Int
  condition : String
  location : String
  sources : List String
deriving Repr, DecidableEq

/-- `response.text || "Unknown"` — JS `||` falls through on `undefined` and `""`. -/
def textOrUnknown : Option String → String
  | none => "Unknown"
  | some t => if t = "" then "Unknown" else t

/-- Sources: the `web.uri` of each grounding chunk that has one (lines 31–36). -/
def extractSources (chunks : List (Option String)) : List String :=
  chunks.filterMap id

/-- `getRealWeatherWithSearch` (lines 20–55): on success, temp 0 and the raw
text as condition; on any failure, the fixed default. -/
def getRealWeatherWithSearch (location : String) (call : Except Unit WeatherResponse) :
    WeatherResult :=
  match call with
  | .ok response =>
      { temp := 0
        condition := textOrUnknown response.text
        location := location
        sources := extractSources response.groundingChunks }
  | .error _ =>
      { temp := 72, condition := "Sunny (Default)", location := location, sources := [] }

/-! ## JSON values and the design-result finalization

`generateProfessionalDesign` (geminiService.ts lines 61–189) parses the
chat response text with `JSON.parse`, injects the search sources into
`realWeather` when present, and spreads the parsed object together with
`conceptArtUrl`.  `JSON.parse` itself is an external builtin; its outcome
is scripted as an `Except Unit Json`. -/

inductive Json where
  | null : Json
  | bool : Bool → Json
  | num : Int → Json
  | str : String → Json
  /-- A JS array: its elements plus any named (non-index) own properties.
  `JSON.parse` only ever produces arrays with an empty property list; the
  list exists because line 158 can assign a named property onto an array. -/
  | arr : List Json → List (String × Json) → Json
  | obj : List (String × Json) → Json

/-- JS truthiness of a parsed value: `null`, `false`, `0` and `""` are
falsy; every object and array (even empty) is truthy. -/
def Json.truthy : Json → Bool
  | .null => false
  | .bool b => b
  | .num n => n != 0
  | .str s => s != ""
  | .arr _ _ => true
  | .obj _ => true

/-- Primitive (non-object, non-array) values: strict-mode property
assignment onto these throws a TypeError. -/
def Json.isPrimitive : Json → Bool
  | .obj _ => false
  | .arr _ _ => false
  | _ => true

/-- Property read `v.k`: own key of an object, named property of an array,
`undefined` (`none`) on primitives.  Reading on `null` throws and is
handled before this function is consulted. -/
def Json.getField : Json → String → Option Json
  | .obj fs, k => (fs.find? (fun p => p.1 = k)).map (fun p => p.2)
  | .arr _ props, k => (props.find? (fun p => p.1 = k)).map (fun p => p.2)
  | _, _ => none

/-- Set key `k` to `v` in an association list, overwriting in place or
appending at the end — JS property-assignment order. -/
def setPair (fs : List (String × Json)) (k : String) (v : Json) : List (String × Json) :=
  if (fs.find? (fun p => p.1 = k)).isSome
  then fs.map (fun p => if p.1 = k then (k, v) else p)
  else fs ++ [(k, v)]

/-- Property assignment `v.k = x` on an object or array (the only callers);
other shapes are unreachable here. -/
def Json.setField : Json → String → Json → Json
  | .obj fs, k, v => .obj (setPair fs k v)
  | .arr elems props, k, v => .arr elems (setPair props k v)
  | j, _, _ => j

/-- `if (designData.realWeather) { designData.realWeather.sources =
weatherInfo.sources; }` (geminiService.ts lines 156–159).  This sits
OUTSIDE the try/catch (which wraps only `JSON.parse`), and the file is an
ES module, hence strict mode.  Two uncaught TypeError paths exist:
reading `.realWeather` on a parsed `null` (line 157), and assigning
`.sources` onto a truthy primitive `realWeather` (line 158).  A truthy
array `realWeather` accepts the assignment as a named property. -/
def injectSources (j : Json) (sources : List String) : Except Unit Json :=
  match j with
  | .null => .error ()
  | _ =>
      match j.getField "realWeather" with
      | none => .ok j
      | some rw =>
          if rw.truthy then
            match rw with
            | .obj rwFields =>
                .ok (j.setField "realWeather"
                  (.obj (setPair rwFields "sources" (.arr (sources.map Json.str) []))))
            | .arr elems props =>
                .ok (j.setField "realWeather"
                  (.arr elems (setPair props "sources" (.arr (sources.map Json.str) []))))
            | _ => .error ()
          else .ok j

/-- Index-keyed own properties contributed by spreading an array:
`{...[a, b]}` yields keys "0", "1", ... -/
def indexProps (xs : List Json) : List (String × Json) :=
  xs.enum.map (fun p => (toString p.1, p.2))

/-- Index-keyed own properties contributed by spreading a string:
`{..."ab"}` yields one-character string values under keys "0", "1", ... -/
def strIndexProps (s : String) : List (String × Json) :=
  s.data.enum.map (fun p => (toString p.1, Json.str (String.mk [p.2])))

/-- The own enumerable string-keyed properties `{...v}` copies: an object's
entries; an array's index entries then named properties; a string's
index-keyed characters; nothing for numbers, booleans and null. -/
def spreadProps : Json → List (String × Json)
  | .obj fs => fs
  | .arr elems props => indexProps elems ++ props
  | .str s => strIndexProps s
  | _ => []

/-- `return { ...designData, conceptArtUrl }` (line 188), after the
`realWeather` injection; propagates the injection step's TypeError. -/
def finalizeDesign (j : Json) (sources : List String) (conceptArtUrl : String) :
    Except Unit Json :=
  match injectSources j sources with
  | .error e => .error e
  | .ok j' => .ok (.obj (setPair (spreadProps j') "conceptArtUrl" (.str conceptArtUrl)))

inductive DesignError where
  | analysisFailed : DesignError
  /-- An uncaught TypeError thrown at lines 157–158 escaping the operation. -/
  | typeError : DesignError
deriving Repr, DecidableEq

/-- Lines 147–159 and 188: `JSON.parse` in try/catch — a parse failure
throws `"Analysis failed. Please try again."`.  A parse success is returned
unchecked (no shape validation) after source injection and the
`conceptArtUrl` spread, unless the injection step throws an uncaught
TypeError, which escapes the operation as-is. -/
def designResultStep (parsed : Except Unit Json) (sources : List String)
    (conceptArtUrl : String) : Except DesignError Json :=
  match parsed with
  | .error _ => .error .analysisFailed
  | .ok designData =>
      match finalizeDesign designData sources conceptArtUrl with
      | .error _ => .error .typeError
      | .ok r => .ok r

/-! ## The conversational turn (lines 144–147)

A chat response may carry a tool/function-call request alongside its text;
the source reads only `response.text` from the single `chat.sendMessage`
call.  The driver consumes the head of the scripted response list and
reports how many turns it sent. -/

structure ToolCallReq where
  name : String
  callId : String
  args : String
deriving Repr, DecidableEq

structure ChatResponse where
  text : String
  toolCallReq : Option ToolCallReq
deriving Repr, DecidableEq

/-- The conversation driver of `generateProfessionalDesign`: exactly one
`chat.sendMessage`, whose response text is taken as the candidate final
answer; returns `(finalText, turnsSent)`, or `none` if the scripted chat
yields no response at all. -/
def designConversation (script : List ChatResponse) : Option (String × Nat) :=
  match script with
  | [] => none
  | first :: _ => some (first.text, 1)

/-! ## Image extraction (the loop repeated at lines 178–186, 217–225,
251–259, 370–378)

A response is a list of candidates; each candidate a list of parts; each
part optionally carries inline data.  The inner `break` leaves the parts
loop only, so each candidate owning an inline part overwrites `url` with
its first such part. -/

structure InlineData where
  mimeType : String
  data : String
deriving Repr, DecidableEq

def dataUrl (d : InlineData) : String :=
  "data:" ++ (d.mimeType ++ (";base64," ++ d.data))

abbrev ImageResponse := List (List (Option InlineData))

def extractImage (cands : ImageResponse) : String :=
  cands.foldl
    (fun url parts =>
      match parts.findSome? id with
      | some d => dataUrl d
      | none => url)
    ""

inductive GenError where
  | noGarmentImage : GenError
  | noEditedImage : GenError
  | noFitImage : GenError
deriving Repr, DecidableEq

/-- `generateGarmentAsset` (lines 198–232): throws when no image was produced. -/
def generateGarmentAsset (resp : ImageResponse) : Except GenError String :=
  let imageUrl := extractImage resp
  if imageUrl = "" then .error .noGarmentImage else .ok imageUrl

/-- `editGarmentImage` (lines 237–263): throws when no image was produced. -/
def editGarmentImage (resp : ImageResponse) : Except GenError String :=
  let imageUrl := extractImage resp
  if imageUrl = "" then .error .noEditedImage else .ok imageUrl

/-- `generateVirtualFit` (lines 311–385): composes `fitPrompt` and throws
when no image was produced. -/
def generateVirtualFit (garmentDescription : String) (context : Option String)
    (simConfig : Option SimulationConfig) (resp : ImageResponse) :
    Except GenError (String × String) :=
  let prompt := fitPrompt garmentDescription context simConfig
  let generatedImageUrl := extractImage resp
  if generatedImageUrl = "" then .error .noFitImage else .ok (prompt, generatedImageUrl)

/-- The concept-art step inside `generateProfessionalDesign` (lines
169–186): the same extraction, but with NO error on absence — the empty
string flows into the returned result. -/
def conceptArtStep (resp : ImageResponse) : String :=
  extractImage resp

/-- The post-conversation tail of `generateProfessionalDesign`: parse the
final text, inject the gathered sources, attach whatever the concept-art
extraction yielded. -/
def generateProfessionalDesign (weatherCall : Except Unit WeatherResponse)
    (location : String) (chatScript : List ChatResponse)
    (parse : String → Except Unit Json) (imageResp : ImageResponse) :
    Option (Except DesignError Json) :=
  let weatherInfo := getRealWeatherWithSearch location weatherCall
  match designConversation chatScript with
  | none => none
  | some (jsonText, _) =>
      some (designResultStep (parse jsonText) weatherInfo.sources (conceptArtStep imageResp))

/-! ## Video generation: `generateStressTestVideo` (lines 447–484)

`operation` starts as the `generateVideos` response; the driver loop is
`while (!operation.done) { await sleep(5000); operation = poll(); }`.
Poll responses are scripted; `drive` returns the final operation and the
number of sleeps performed, or `none` when the script is exhausted while
the job is still pending (the loop would keep polling — it has no bound). -/

def pollSleepMs : Nat := 5000

structure VideoOp where
  done : Bool
  uri : Option String
deriving Repr, DecidableEq

def drive (op : VideoOp) (script : List VideoOp) (sleeps : Nat) :
    Option (VideoOp × Nat) :=
  if op.done then some (op, sleeps)
  else
    match script with
    | [] => none
    | next :: rest => drive next rest (sleeps + 1)

inductive VideoError where
  | videoGenerationFailed : VideoError
deriving Repr, DecidableEq

/-- Lines 477–483: on loop exit, the download link must be present, else
`"Video generation failed or no URI returned."`; on success the API key is
appended to the locator. -/
def finishVideo (op : VideoOp) (apiKey : String) : Except VideoError String :=
  match op.uri with
  | none => .error .videoGenerationFailed
  | some downloadLink => .ok (downloadLink ++ ("&key=" ++ apiKey))

/-- The whole polling driver: scripted start response, scripted poll
responses; yields the outcome and the sleep count (each sleep being the
fixed `pollSleepMs` interval), or `none` when the unbounded loop outruns
the script. -/
def generateStressTestVideo (start : VideoOp) (script : List VideoOp)
    (apiKey : String) : Option (Except VideoError String × Nat) :=
  match drive start script 0 with
  | none => none
  | some (op, sleeps) => some (finishVideo op apiKey, sleeps)

/-! ## Helper lemmas about string containment -/

theorem string_append_assoc (a b c : String) : (a ++ b) ++ c = a ++ (b ++ c) := by
  apply String.ext
  simp [String.data_append]

theorem strContains_prefix (p b : String) : strContains (p ++ b) p := by
  refine ⟨"", b, ?_⟩
  apply String.ext
  simp [String.data_append]

theorem strContains_mono_left (x s p : String) (h : strContains s p) :
    strContains (x ++ s) p := by
  obtain ⟨a, b, rfl⟩ := h
  exact ⟨x ++ a, b, (string_append_assoc x a (p ++ b)).symm⟩

theorem strContains_mono_right (s y p : String) (h : strContains s p) :
    strContains (s ++ y) p := by
  obtain ⟨a, b, rfl⟩ := h
  refine ⟨a, b ++ y, ?_⟩
  rw [string_append_assoc, string_append_assoc]

theorem strContains_trans (s t p : String) (h1 : strContains s t) (h2 : strContains t p) :
    strContains s p := by
  obtain ⟨a, b, rfl⟩ := h1
  obtain ⟨x, y, rfl⟩ := h2
  refine ⟨a ++ x, y ++ b, ?_⟩
  simp [string_append_assoc]

/-! ## Helper lemmas about the composed fit prompt -/

theorem physicsPrompt_contains_heavySlot (c : SimulationConfig) :
    strContains (physicsPrompt c) (heavySlot c) := by
  unfold physicsPrompt
  iterate 3 apply strContains_mono_left
  exact strContains_prefix _ _

theorem physicsPrompt_contains_flowSlot (c : SimulationConfig) :
    strContains (physicsPrompt c) (flowSlot c) := by
  unfold physicsPrompt
  iterate 5 apply strContains_mono_left
  exact strContains_prefix _ _

theorem physicsPrompt_contains_wetSlot (c : SimulationConfig) :
    strContains (physicsPrompt c) (wetSlot c) := by
  unfold physicsPrompt
  iterate 7 apply strContains_mono_left
  exact strContains_prefix _ _

theorem physicsPrompt_contains_constraintSlot (c : SimulationConfig) :
    strContains (physicsPrompt c) (constraintSlot c) := by
  unfold physicsPrompt
  iterate 17 apply strContains_mono_left
  exact strContains_prefix _ _

theorem fitPrompt_contains_physicsPrompt (gd : String) (ctx : Option String)
    (c : SimulationConfig) :
    strContains (fitPrompt gd ctx (some c)) (physicsPrompt c) := by
  unfold fitPrompt
  iterate 5 apply strContains_mono_left
  show strContains (physicsPrompt c ++ _) _
  exact strContains_prefix _ _

theorem constraintClause_contains_text (t : String) :
    strContains (constraintClause t) t := by
  unfold constraintClause
  apply strContains_mono_left
  exact strContains_prefix _ _

theorem constraintClause_contains_marker (t : String) :
    strContains (constraintClause t) "(Priority: High" := by
  unfold constraintClause
  iterate 3 apply strContains_mono_left
  exact strContains_prefix _ _

/-! ## Claim theorems -/

/-- C3: for every location, when the search-grounded call fails,
`getRealWeatherWithSearch` returns the documented default — temperature 72,
the default sunny condition, and an empty sources list — rather than
propagating the failure.  (`getRealWeatherWithSearch` is a total function of
the scripted call outcome, so no failure ever escapes it.) -/
theorem weather_failure_returns_default (location : String) (e : Unit) :
    getRealWeatherWithSearch location (.error e) =
      { temp := 72, condition := "Sunny (Default)", location := location, sources := [] } :=
  rfl

/-- C10: whenever the search-grounded call succeeds, the returned temperature
is the constant 0 and the condition field carries the raw response text
(falling back to "Unknown" only when the response text is absent or empty);
a nonzero temperature arises only from the failure fallback, which yields 72. -/
theorem weather_success_temp_is_zero (location : String) (call : Except Unit WeatherResponse) :
    (∀ resp, call = .ok resp →
        (getRealWeatherWithSearch location call).temp = 0
      ∧ (getRealWeatherWithSearch location call).condition = textOrUnknown resp.text
      ∧ (∀ t, resp.text = some t → t ≠ "" →
          (getRealWeatherWithSearch location call).condition = t))
  ∧ ((getRealWeatherWithSearch location call).temp ≠ 0 →
        call = .error () ∧ (getRealWeatherWithSearch location call).temp = 72) := by
  constructor
  · intro resp h
    subst h
    refine ⟨rfl, rfl, ?_⟩
    intro t ht hne
    simp [getRealWeatherWithSearch, textOrUnknown, ht, hne]
  · intro h
    match call with
    | .ok resp => exact absurd rfl h
    | .error () => exact ⟨rfl, rfl⟩

/-- Witness for C10 at a concrete successful call and a concrete failing call. -/
theorem weather_success_temp_is_zero_witness :
    (getRealWeatherWithSearch "London" (.ok ⟨some "rainy", []⟩)).temp = 0
  ∧ (getRealWeatherWithSearch "London" (.ok ⟨some "rainy", []⟩)).condition = "rainy"
  ∧ (getRealWeatherWithSearch "London" (.error ())).temp = 72 :=
  ⟨((weather_success_temp_is_zero "London" (.ok ⟨some "rainy", []⟩)).1 _ rfl).1,
   ((weather_success_temp_is_zero "London" (.ok ⟨some "rainy", []⟩)).1 _ rfl).2.2 "rainy" rfl
     (by decide),
   ((weather_success_temp_is_zero "London" (.error ())).2 (by decide)).2⟩

/-- C4, counterexample: with the start response pending and the scripted
poll responses `[done=false, done=false, done=true+locator]`, the driver
returns the locator but sleeps THREE times (once before each poll), not
twice as the claim states. -/
theorem video_poll_two_sleeps_cex :
    generateStressTestVideo ⟨false, none⟩
        [⟨false, none⟩, ⟨false, none⟩, ⟨true, some "u"⟩] "K"
      = some (.ok "u&key=K", 3)
  ∧ (3 : Nat) ≠ 2 := by
  constructor
  · rfl
  · decide

/-- C4, amended: given the scripted poll responses
`[done=false, done=false, done=true+locator]` after a pending start
response, the driver loop terminates, returns the final locator (with the
key suffix appended), and invokes the fixed 5-second sleep exactly three
times — once per poll. -/
theorem video_poll_terminates_three_sleeps (loc apiKey : String) :
    generateStressTestVideo ⟨false, none⟩
        [⟨false, none⟩, ⟨false, none⟩, ⟨true, some loc⟩] apiKey
      = some (.ok (loc ++ ("&key=" ++ apiKey)), 3)
  ∧ pollSleepMs = 5000 :=
  ⟨rfl, rfl⟩

/-- C5: whenever the polling loop exits with a job that reports done but
carries no result locator, `generateStressTestVideo` raises
`VideoGenerationFailed` instead of returning a locator. -/
theorem video_no_locator_fails (start : VideoOp) (script : List VideoOp) (apiKey : String)
    (op : VideoOp) (n : Nat) (h : drive start script 0 = some (op, n))
    (hu : op.uri = none) :
    generateStressTestVideo start script apiKey = some (.error .videoGenerationFailed, n) := by
  simp [generateStressTestVideo, h, finishVideo, hu]

/-- Witness for C5: a scripted sequence ending `done=true` with no locator. -/
theorem video_no_locator_fails_witness :
    generateStressTestVideo ⟨false, none⟩ [⟨false, none⟩, ⟨true, none⟩] "K"
      = some (.error .videoGenerationFailed, 2) :=
  video_no_locator_fails ⟨false, none⟩ [⟨false, none⟩, ⟨true, none⟩] "K"
    ⟨true, none⟩ 2 rfl rfl

/-- C1, counterexample: the empty JSON object (the parse of "\x7b\x7d")
is missing every required top-level key (`lookTitle` among them), yet
`generateProfessionalDesign`'s result step returns it to the caller
augmented with `conceptArtUrl` instead of failing with a validation error. -/
theorem design_shape_validation_cex :
    designResultStep (.ok (Json.obj [])) [] ""
      = .ok (Json.obj [("conceptArtUrl", Json.str "")])
  ∧ (Json.obj []).getField "lookTitle" = none :=
  ⟨rfl, rfl⟩

/-- C1, amended: no required-key or primitive-kind validation ever occurs.
A parse failure raises the generic analysis error.  When parsing succeeds
and the `realWeather` injection step does not throw, the parsed value —
shape-violating or not — is surfaced to the caller with `conceptArtUrl`
spread in.  The only other failures are uncaught TypeErrors escaping the
operation when the injection step throws (parsed value `null`, line 157;
truthy primitive `realWeather`, line 158) — still not a validation error. -/
theorem design_result_parse_only (parsed : Except Unit Json) (sources : List String)
    (art : String) :
    (∀ e, parsed = .error e → designResultStep parsed sources art = .error .analysisFailed)
  ∧ (∀ j j', parsed = .ok j → injectSources j sources = .ok j' →
      designResultStep parsed sources art
        = .ok (.obj (setPair (spreadProps j') "conceptArtUrl" (.str art))))
  ∧ (∀ j, parsed = .ok j → injectSources j sources = .error () →
      designResultStep parsed sources art = .error .typeError)
  ∧ (parsed = .ok .null → designResultStep parsed sources art = .error .typeError) := by
  refine ⟨?_, ?_, ?_, ?_⟩
  · intro e h
    subst h
    rfl
  · intro j j' h hj
    subst h
    simp [designResultStep, finalizeDesign, hj]
  · intro j h hj
    subst h
    simp [designResultStep, finalizeDesign, hj]
  · intro h
    subst h
    rfl

/-- Witness for C1's amended theorem at a concrete parse failure, a
concrete injection-free parse success, the parsed `null`, and a concrete
truthy-primitive `realWeather`. -/
theorem design_result_parse_only_witness :
    designResultStep (.error ()) [] "a" = .error .analysisFailed
  ∧ designResultStep (.ok (Json.obj [("lookTitle", Json.str "t")])) [] "a"
      = .ok (Json.obj [("lookTitle", Json.str "t"), ("conceptArtUrl", Json.str "a")])
  ∧ designResultStep (.ok Json.null) [] "a" = .error .typeError
  ∧ designResultStep (.ok (Json.obj [("realWeather", Json.num 75)])) [] "a"
      = .error .typeError :=
  ⟨(design_result_parse_only (.error ()) [] "a").1 () rfl,
   (design_result_parse_only (.ok (Json.obj [("lookTitle", Json.str "t")])) [] "a").2.1
     (Json.obj [("lookTitle", Json.str "t")]) (Json.obj [("lookTitle", Json.str "t")]) rfl rfl,
   (design_result_parse_only (.ok Json.null) [] "a").2.2.2 rfl,
   (design_result_parse_only (.ok (Json.obj [("realWeather", Json.num 75)])) [] "a").2.2.1
     (Json.obj [("realWeather", Json.num 75)]) rfl rfl⟩

/-- C2, counterexample: when the first conversational response signals a
tool/function-call request, the synthesizer does NOT execute a capability
or send a follow-up turn — it sends exactly one turn and treats the first
response's own text as the candidate final answer.  Under the claimed
protocol the scripted conversation below would resolve to the second
response's text after two turns. -/
theorem design_tool_call_cex :
    designConversation
        [⟨"first", some ⟨"getWeather", "call-1", "London"⟩⟩, ⟨"second", none⟩]
      = some ("first", 1)
  ∧ (some (("first", 1) : String × Nat) ≠ some (("second", 2) : String × Nat)) := by
  constructor
  · rfl
  · decide

/-- C2, amended: the synthesizer performs no tool round trip at all: for
every non-empty scripted conversation it sends exactly one turn, treats the
first response's text as the candidate final answer, and its behavior is
unchanged by the presence of a tool-call request on that response (the
request is silently ignored; no follow-up turn is sent and no
UnexpectedToolCall protocol error exists). -/
theorem design_tool_call_ignored (t : String) (tc : ToolCallReq) (rest : List ChatResponse) :
    designConversation ({ text := t, toolCallReq := some tc } :: rest) = some (t, 1)
  ∧ designConversation ({ text := t, toolCallReq := some tc } :: rest)
      = designConversation ({ text := t, toolCallReq := none } :: rest) :=
  ⟨rfl, rfl⟩

/-- C6, counterexample: on an image response with no inline payload,
`generateGarmentAsset` fails with its no-artifact error, but the
concept-art step inside `generateProfessionalDesign` silently yields the
empty locator and the design result is returned with `conceptArtUrl = ""`
— the policy is not applied uniformly across call sites. -/
theorem no_artifact_policy_cex :
    generateGarmentAsset [] = .error .noGarmentImage
  ∧ conceptArtStep [] = ""
  ∧ generateProfessionalDesign (.error ()) "L" [⟨"x", none⟩]
        (fun _ => .ok (Json.obj [])) []
      = some (.ok (Json.obj [("conceptArtUrl", Json.str "")])) :=
  ⟨rfl, rfl, rfl⟩

/-- C6, amended: the no-artifact policy is uniform across the three
standalone image operations — garment asset generation, image editing and
virtual fit compositing each fail with their no-artifact error when the
response carries no inline image — but the concept-art step inside design
generation does NOT follow it: whenever the parsed design value's
`realWeather` injection step does not throw, the design result is still
returned, with an empty `conceptArtUrl`. -/
theorem no_artifact_policy (resp : ImageResponse) (h : extractImage resp = "")
    (gd : String) (ctx : Option String) (sc : Option SimulationConfig)
    (w : Except Unit WeatherResponse) (loc t : String) (rest : List ChatResponse)
    (j j' : Json)
    (hj : injectSources j (getRealWeatherWithSearch loc w).sources = .ok j') :
    generateGarmentAsset resp = .error .noGarmentImage
  ∧ editGarmentImage resp = .error .noEditedImage
  ∧ generateVirtualFit gd ctx sc resp = .error .noFitImage
  ∧ generateProfessionalDesign w loc (⟨t, none⟩ :: rest) (fun _ => .ok j) resp
      = some (.ok (.obj (setPair (spreadProps j') "conceptArtUrl" (.str "")))) := by
  refine ⟨?_, ?_, ?_, ?_⟩
  · simp [generateGarmentAsset, h]
  · simp [editGarmentImage, h]
  · simp [generateVirtualFit, h]
  · simp [generateProfessionalDesign, designConversation, designResultStep, finalizeDesign,
      conceptArtStep, h, hj]

/-- Witness for C6's amended theorem at the empty image response. -/
theorem no_artifact_policy_witness :
    generateGarmentAsset [] = .error .noGarmentImage
  ∧ editGarmentImage [] = .error .noEditedImage
  ∧ generateVirtualFit "d" none none [] = .error .noFitImage
  ∧ generateProfessionalDesign (.error ()) "L" [⟨"x", none⟩]
        (fun _ => .ok (Json.obj [])) []
      = some (.ok (Json.obj [("conceptArtUrl", Json.str "")])) :=
  no_artifact_policy [] rfl "d" none none (.error ()) "L" "x" [] (Json.obj [])
    (Json.obj []) rfl

/-- C7: for every SimulationConfig, the composed fit directive contains the
damp/darker/clinging clause when physics is "wet", the
hangs-heavily-with-minimal-folds clause when physics is "heavy", and the
dynamic-movement clause when physics is "flow"; when physics is "static"
none of these extra physics clauses is added (all three conditional slots
are empty). -/
theorem fit_prompt_physics_clauses (gd : String) (ctx : Option String)
    (c : SimulationConfig) :
    (c.physics = "wet" → strContains (fitPrompt gd ctx (some c)) wetClause)
  ∧ (c.physics = "heavy" → strContains (fitPrompt gd ctx (some c)) heavyClause)
  ∧ (c.physics = "flow" → strContains (fitPrompt gd ctx (some c)) flowClause)
  ∧ (c.physics = "static" → heavySlot c = "" ∧ flowSlot c = "" ∧ wetSlot c = "") := by
  refine ⟨?_, ?_, ?_, ?_⟩
  · intro h
    apply strContains_trans _ (physicsPrompt c) _ (fitPrompt_contains_physicsPrompt gd ctx c)
    have hs : wetSlot c = wetClause := by simp [wetSlot, h]
    rw [← hs]
    exact physicsPrompt_contains_wetSlot c
  · intro h
    apply strContains_trans _ (physicsPrompt c) _ (fitPrompt_contains_physicsPrompt gd ctx c)
    have hs : heavySlot c = heavyClause := by simp [heavySlot, h]
    rw [← hs]
    exact physicsPrompt_contains_heavySlot c
  · intro h
    apply strContains_trans _ (physicsPrompt c) _ (fitPrompt_contains_physicsPrompt gd ctx c)
    have hs : flowSlot c = flowClause := by simp [flowSlot, h]
    rw [← hs]
    exact physicsPrompt_contains_flowSlot c
  · intro h
    refine ⟨?_, ?_, ?_⟩ <;> simp [heavySlot, flowSlot, wetSlot, h]

/-- Witness for C7 at one concrete configuration per physics value. -/
theorem fit_prompt_physics_clauses_witness :
    strContains (fitPrompt "d" none (some ⟨"wet", "natural", "idle", ""⟩)) wetClause
  ∧ strContains (fitPrompt "d" none (some ⟨"heavy", "natural", "idle", ""⟩)) heavyClause
  ∧ strContains (fitPrompt "d" none (some ⟨"flow", "natural", "idle", ""⟩)) flowClause
  ∧ (heavySlot ⟨"static", "natural", "idle", ""⟩ = ""
      ∧ flowSlot ⟨"static", "natural", "idle", ""⟩ = ""
      ∧ wetSlot ⟨"static", "natural", "idle", ""⟩ = "") :=
  ⟨(fit_prompt_physics_clauses "d" none ⟨"wet", "natural", "idle", ""⟩).1 rfl,
   (fit_prompt_physics_clauses "d" none ⟨"heavy", "natural", "idle", ""⟩).2.1 rfl,
   (fit_prompt_physics_clauses "d" none ⟨"flow", "natural", "idle", ""⟩).2.2.1 rfl,
   (fit_prompt_physics_clauses "d" none ⟨"static", "natural", "idle", ""⟩).2.2.2 rfl⟩

/-- C8: for every SimulationConfig with a non-empty `actorConstraints`
string, the composed fit directive contains that exact constraint string
verbatim, contains the full high-priority safety clause echoing it, and
contains the "(Priority: High" marker. -/
theorem fit_prompt_actor_constraints (gd : String) (ctx : Option String)
    (c : SimulationConfig) (h : c.actorConstraints ≠ "") :
    strContains (fitPrompt gd ctx (some c)) c.actorConstraints
  ∧ strContains (fitPrompt gd ctx (some c)) (constraintClause c.actorConstraints)
  ∧ strContains (fitPrompt gd ctx (some c)) "(Priority: High" := by
  have hslot : constraintSlot c = constraintClause c.actorConstraints := by
    simp [constraintSlot, h]
  have hclause : strContains (fitPrompt gd ctx (some c)) (constraintClause c.actorConstraints) := by
    apply strContains_trans _ (physicsPrompt c) _ (fitPrompt_contains_physicsPrompt gd ctx c)
    rw [← hslot]
    exact physicsPrompt_contains_constraintSlot c
  exact ⟨strContains_trans _ _ _ hclause (constraintClause_contains_text _),
         hclause,
         strContains_trans _ _ _ hclause (constraintClause_contains_marker _)⟩

/-- Witness for C8 at a concrete configuration with a non-empty constraint. -/
theorem fit_prompt_actor_constraints_witness :
    strContains (fitPrompt "d" none (some ⟨"static", "natural", "idle", "no heels"⟩)) "no heels"
  ∧ strContains (fitPrompt "d" none (some ⟨"static", "natural", "idle", "no heels"⟩))
      (constraintClause "no heels")
  ∧ strContains (fitPrompt "d" none (some ⟨"static", "natural", "idle", "no heels"⟩))
      "(Priority: High" :=
  fit_prompt_actor_constraints "d" none ⟨"static", "natural", "idle", "no heels"⟩ (by decide)

/-- C9, counterexample: a configuration whose physics value "bouncy" and
lighting value "glow" lie outside the declared enumerations is NOT
rejected: every conditional clause slot is silently empty, and
`generateVirtualFit` succeeds, returning the composed prompt (which merely
interpolates the raw values) and the produced image locator. -/
theorem unknown_enum_value_cex :
    heavySlot ⟨"bouncy", "glow", "idle", ""⟩ = ""
  ∧ flowSlot ⟨"bouncy", "glow", "idle", ""⟩ = ""
  ∧ wetSlot ⟨"bouncy", "glow", "idle", ""⟩ = ""
  ∧ dramaticSlot ⟨"bouncy", "glow", "idle", ""⟩ = ""
  ∧ neonSlot ⟨"bouncy", "glow", "idle", ""⟩ = ""
  ∧ generateVirtualFit "d" none (some ⟨"bouncy", "glow", "idle", ""⟩)
        [[some ⟨"image/png", "X"⟩]]
      = .ok (fitPrompt "d" none (some ⟨"bouncy", "glow", "idle", ""⟩),
             "data:image/png;base64,X") := by
  refine ⟨rfl, rfl, rfl, rfl, rfl, ?_⟩
  rfl

/-- C9, amended: values outside the declared enumerations are silently
ignored, not rejected: for any configuration whose physics is none of
heavy/flow/wet and whose lighting is neither dramatic nor neon, every
conditional clause slot is empty, and the fit operation still succeeds
whenever the response carries an image — no error path inspects the
configuration at all. -/
theorem unknown_enum_value_ignored (c : SimulationConfig)
    (hp : c.physics ∉ (["heavy", "flow", "wet"] : List String))
    (hl : c.lighting ∉ (["dramatic", "neon"] : List String)) :
    (heavySlot c = "" ∧ flowSlot c = "" ∧ wetSlot c = ""
      ∧ dramaticSlot c = "" ∧ neonSlot c = "")
  ∧ (∀ gd ctx resp, extractImage resp ≠ "" →
      generateVirtualFit gd ctx (some c) resp
        = .ok (fitPrompt gd ctx (some c), extractImage resp)) := by
  have h1 : c.physics ≠ "heavy" := fun h => hp (by simp [h])
  have h2 : c.physics ≠ "flow" := fun h => hp (by simp [h])
  have h3 : c.physics ≠ "wet" := fun h => hp (by simp [h])
  have h4 : c.lighting ≠ "dramatic" := fun h => hl (by simp [h])
  have h5 : c.lighting ≠ "neon" := fun h => hl (by simp [h])
  refine ⟨⟨?_, ?_, ?_, ?_, ?_⟩, ?_⟩
  · simp [heavySlot, h1]
  · simp [flowSlot, h2]
  · simp [wetSlot, h3]
  · simp [dramaticSlot, h4]
  · simp [neonSlot, h5]
  · intro gd ctx resp h
    simp [generateVirtualFit, h]

/-- Witness for C9's amended theorem at a concrete out-of-enumeration
configuration and a concrete response carrying an image. -/
theorem unknown_enum_value_ignored_witness :
    (heavySlot ⟨"slimy", "strobe", "idle", ""⟩ = ""
      ∧ flowSlot ⟨"slimy", "strobe", "idle", ""⟩ = ""
      ∧ wetSlot ⟨"slimy", "strobe", "idle", ""⟩ = ""
      ∧ dramaticSlot ⟨"slimy", "strobe", "idle", ""⟩ = ""
      ∧ neonSlot ⟨"slimy", "strobe", "idle", ""⟩ = "")
  ∧ generateVirtualFit "d" none (some ⟨"slimy", "strobe", "idle", ""⟩)
        [[some ⟨"image/png", "Y"⟩]]
      = .ok (fitPrompt "d" none (some ⟨"slimy", "strobe", "idle", ""⟩),
             extractImage [[some ⟨"image/png", "Y"⟩]]) :=
  ⟨(unknown_enum_value_ignored ⟨"slimy", "strobe", "idle", ""⟩ (by decide) (by decide)).1,
   (unknown_enum_value_ignored ⟨"slimy", "strobe", "idle", ""⟩ (by decide) (by decide)).2
     "d" none [[some ⟨"image/png", "Y"⟩]] (by decide)⟩

end Style
